import Mathlib

/-!
Shallow embedding of the TINTIN server (src/tintin-app/server.js): the SQLite
tables `users`, `likes`, `matches`, `messages` and the request handlers that the
specification's claims are about.

Modelling conventions, each tied to the source:
* The server is a single-threaded Node process and every handler body runs
  `better-sqlite3` synchronously with no `await` point, so each HTTP/socket
  handler executes atomically; "concurrent" requests are an arbitrary serial
  interleaving of such atomic steps.
* `genId(prefix)` (server.js:116-119) returns `prefix_nextId++_Date.now()`; the
  id is injective in the shared counter `nextId`, so ids are modelled as the
  counter value (a `Nat`).  Likes, matches, messages and users all draw from the
  one counter.
* User ids are opaque strings supplied from outside the modelled core (the spec
  treats identity issuance as an external collaborator), so registration takes
  the id as a parameter.
* `createdAt` columns default to `CURRENT_TIMESTAMP`, a wall-clock value of one
  second granularity; message insertion therefore takes the current timestamp as
  a `Nat` parameter, and two inserts in the same second receive equal stamps.
* The `likes`/`matches`/`messages` tables declare FOREIGN KEY clauses, but the
  code never issues `PRAGMA foreign_keys = ON` (it only sets `journal_mode`),
  and SQLite leaves foreign-key enforcement off by default, so inserts with
  unknown referenced ids succeed.
* Rows are kept in insertion (rowid) order; `.get` on a SELECT is `List.find?`,
  `.all` is `List.filter`, `ORDER BY createdAt ASC` is a sort by that column.
* Store failures (disk errors) are not modelled; the generic 500 catch branches
  are reached in this model only where the code itself builds a failing
  statement (the card-listing parameter-count mismatch).
-/

namespace Tintin

/-- A row of the `likes` table (server.js:64-75): id, fromUserId, toUserId and
the action, which the schema constrains to 'like' or 'pass'. -/
structure LikeRec where
  id : Nat
  fromUserId : String
  toUserId : String
  action : String
deriving Repr, DecidableEq

/-- A row of the `matches` table (server.js:77-87): id and the two user columns
`userA`, `userB` in the order they were inserted. -/
structure MatchRow where
  id : Nat
  userA : String
  userB : String
deriving Repr, DecidableEq

/-- A row of the `messages` table (server.js:89-100): id, matchId, senderId,
content, and the `createdAt` stamp (`CURRENT_TIMESTAMP`, second granularity).
The table has no sequence column. -/
structure MessageRow where
  id : Nat
  matchId : Nat
  senderId : String
  content : String
  createdAt : Nat
deriving Repr, DecidableEq

/-- The database state: the four tables relevant to the claims plus the global
id counter `nextId` (server.js:116).  Profile columns of `users` (name, bio,
skills, ratings) are carried nowhere in the claims' control flow, so a user row
is represented by its id. -/
structure DB where
  users : List String
  likes : List LikeRec
  matchRows : List MatchRow
  messages : List MessageRow
  nextId : Nat
deriving Repr, DecidableEq

/-- Result of POST /api/swipe/action as seen by the caller: a 400 validation
response, or the 200 body `{ok: true, match, matchId?}` (server.js:354-359,
388, 392).  The JSON field is named `match`; it is the claims' `matched`. -/
inductive SwipeResp where
  | validationError (msg : String)
  | ok (matched : Bool) (matchId : Option Nat)
deriving Repr, DecidableEq

/-- True when the response is a 200 body rather than a 400 validation error. -/
def SwipeResp.isOk : SwipeResp → Bool
  | .validationError _ => false
  | .ok _ _ => true

/-- The `matched` flag of a swipe response (`false` for a validation error). -/
def SwipeResp.isMatched : SwipeResp → Bool
  | .validationError _ => false
  | .ok b _ => b

/-- Errors of the HTTP read endpoints: 404 and 500 as the code produces them.
The `forbidden` (403) constructor is present only to state the specification's
error taxonomy; no handler in server.js ever produces a 403. -/
inductive ApiErr where
  | notFound (msg : String)
  | forbidden (msg : String)
  | internal (msg : String)
deriving Repr, DecidableEq

instance {ε α : Type} [DecidableEq ε] [DecidableEq α] : DecidableEq (Except ε α) :=
  fun x y =>
  match x, y with
  | .error e, .error f =>
    if h : e = f then isTrue (by rw [h]) else isFalse (by intro hh; cases hh; exact h rfl)
  | .ok a, .ok b =>
    if h : a = b then isTrue (by rw [h]) else isFalse (by intro hh; cases hh; exact h rfl)
  | .error _, .ok _ => isFalse (by intro hh; cases hh)
  | .ok _, .error _ => isFalse (by intro hh; cases hh)

/-- Socket.io events emitted to a user-id room: `matched` (server.js:385-386)
and `message` (server.js:526-527). -/
inductive Event where
  | matchedEv (toUser : String) (matchId : Nat) (withUser : String)
  | messageEv (toUser : String) (msgId : Nat)
deriving Repr, DecidableEq

/-- The reciprocal-like lookup `SELECT id FROM likes WHERE fromUserId = ? AND
toUserId = ? AND action = 'like'` with `.get` (server.js:371-375): the first
row with that exact ordered pair and a like decision. -/
def findReciprocal (likes : List LikeRec) (fromU toU : String) : Option LikeRec :=
  likes.find? fun l => l.fromUserId == fromU && l.toUserId == toU && l.action == "like"

/-- POST /api/swipe/action (server.js:351-397).  Validates presence of
`targetUserId`/`action` (JS falsy: the empty string) and the action value,
inserts the like row unconditionally, and on a like checks the reciprocal
direction against the post-insert table; if found it inserts a fresh match row
`(userA := actor, userB := target)` and emits a `matched` event to each side.
There is no actor≠target check, no target-existence check, and no lookup of an
already existing match. -/
def swipeAction (s : DB) (userId targetUserId action : String) :
    DB × SwipeResp × List Event :=
  if targetUserId == "" || action == "" then
    (s, .validationError "targetUserId e action são obrigatórios", [])
  else if !(action == "like" || action == "pass") then
    (s, .validationError "Action deve ser like ou pass", [])
  else
    let likeId := s.nextId
    let s1 : DB := { s with
      likes := s.likes ++ [⟨likeId, userId, targetUserId, action⟩],
      nextId := s.nextId + 1 }
    if action == "like" then
      match findReciprocal s1.likes targetUserId userId with
      | some _ =>
        let matchId := s1.nextId
        let s2 : DB := { s1 with
          matchRows := s1.matchRows ++ [⟨matchId, userId, targetUserId⟩],
          nextId := s1.nextId + 1 }
        (s2, .ok true (some matchId),
          [.matchedEv userId matchId targetUserId,
           .matchedEv targetUserId matchId userId])
      | none => (s1, .ok false none, [])
    else
      (s1, .ok false none, [])

/-- The membership-checking match lookup `SELECT * FROM matches WHERE id = ?
AND (userA = ? OR userB = ?)` with `.get`, shared by the message-history route
(server.js:416-419) and the socket send_message handler (server.js:501-504). -/
def findMatchFor (s : DB) (matchId : Nat) (userId : String) : Option MatchRow :=
  s.matchRows.find? fun m => m.id == matchId && (m.userA == userId || m.userB == userId)

/-- Ordering used by `ORDER BY createdAt ASC` on the messages table. -/
def byCreatedAt (a b : MessageRow) : Prop := a.createdAt ≤ b.createdAt

instance : DecidableRel byCreatedAt := fun a b => Nat.decLe a.createdAt b.createdAt

instance : IsTotal MessageRow byCreatedAt := ⟨fun a b => Nat.le_total a.createdAt b.createdAt⟩

instance : IsTrans MessageRow byCreatedAt := ⟨fun _ _ _ h h2 => Nat.le_trans h h2⟩

/-- GET /api/matches/:id/messages (server.js:414-431).  If no match row has the
given id with the requester as userA or userB, the route answers 404 "Match não
encontrado" — both for an unknown id and for a non-participant.  Otherwise it
returns the match's messages ordered by `createdAt` ascending (the table has no
other ordering key; ties are possible within one second). -/
def getMessages (s : DB) (userId : String) (matchId : Nat) :
    Except ApiErr (List MessageRow) :=
  match findMatchFor s matchId userId with
  | none => .error (.notFound "Match não encontrado")
  | some _ =>
    .ok (List.insertionSort byCreatedAt (s.messages.filter fun g => g.matchId == matchId))

/-- The socket send_message handler (server.js:497-532).  The same match lookup
guards it; failure emits the error string "Match não encontrado" and persists
nothing.  On success it inserts the message with a fresh id and the current
timestamp `t`, and emits a `message` event to both participants' rooms. -/
def sendMessage (s : DB) (userId : String) (matchId : Nat) (content : String) (t : Nat) :
    DB × Except String MessageRow × List Event :=
  match findMatchFor s matchId userId with
  | none => (s, .error "Match não encontrado", [])
  | some m =>
    let msgId := s.nextId
    let msg : MessageRow := ⟨msgId, matchId, userId, content, t⟩
    ({ s with messages := s.messages ++ [msg], nextId := s.nextId + 1 },
     .ok msg, [.messageEv m.userA msgId, .messageEv m.userB msgId])

/-- `SELECT toUserId FROM likes WHERE fromUserId = ?` mapped to the target ids
(server.js:314-317): every identity the actor has ever swiped on, either
decision. -/
def decidedTargets (s : DB) (userId : String) : List String :=
  (s.likes.filter fun l => l.fromUserId == userId).map (·.toUserId)

/-- GET /api/swipe/cards (server.js:312-349), reduced to which identities
appear (the skill/bio/rating projection does not affect membership).  When the
`seen` list is empty, `placeholders` falls back to a single '?' so the SQL text
`WHERE u.id != ? AND u.id NOT IN (?)` is prepared with two placeholders while
`params = [req.userId]` binds one value; better-sqlite3 then throws a
RangeError, the catch answers 500.  Otherwise the query keeps every user whose
id differs from the requester and is not among the seen targets. -/
def getCards (s : DB) (userId : String) : Except ApiErr (List String) :=
  let seen := decidedTargets s userId
  if seen.isEmpty then
    .error (.internal "Erro ao obter cards")
  else
    .ok (s.users.filter fun u => u != userId && !(seen.contains u))

/-- One atomic handler execution: registering a user (POST /api/auth/register,
reduced to the inserted id), a swipe, or a socket message send stamped `t`. -/
inductive Op where
  | register (userId : String)
  | swipe (userId targetUserId action : String)
  | send (userId : String) (matchId : Nat) (content : String) (t : Nat)
deriving Repr, DecidableEq

/-- State transition of one handler execution (responses discarded). -/
def execOp (s : DB) : Op → DB
  | .register u => { s with users := s.users ++ [u] }
  | .swipe u tgt a => (swipeAction s u tgt a).1
  | .send u m c t => (sendMessage s u m c t).1

/-- The freshly initialised database: empty tables, `nextId = 1`
(server.js:48-116). -/
def initDB : DB := ⟨[], [], [], [], 1⟩

/-- Run a serial trace of handler executions. -/
def runOps (s : DB) (ops : List Op) : DB := ops.foldl execOp s

/-- States the server can be in: reachable from the fresh database by some
serial trace of handler executions. -/
def Reachable (s : DB) : Prop := ∃ ops, runOps initDB ops = s

/-- The match rows between `a` and `b` in either column order. -/
def matchesBetween (s : DB) (a b : String) : List MatchRow :=
  s.matchRows.filter fun m =>
    (m.userA == a && m.userB == b) || (m.userA == b && m.userB == a)

/-- Strict increase of the `createdAt` stamps along a message list. -/
def strictIncCreatedAt : List MessageRow → Bool
  | [] => true
  | [_] => true
  | a :: b :: rest => a.createdAt < b.createdAt && strictIncCreatedAt (b :: rest)

/-- Every match row is backed by like rows in both directions: the handler
inserts a match only after inserting the actor's like and finding a reciprocal
like row. -/
def likesWitness (s : DB) : Prop :=
  ∀ m ∈ s.matchRows,
    (∃ l ∈ s.likes, l.fromUserId = m.userA ∧ l.toUserId = m.userB ∧ l.action = "like") ∧
    (∃ l ∈ s.likes, l.fromUserId = m.userB ∧ l.toUserId = m.userA ∧ l.action = "like")

/-- All row ids are below the id counter, so a fresh id collides with nothing. -/
def idsBounded (s : DB) : Prop :=
  (∀ l ∈ s.likes, l.id < s.nextId) ∧
  (∀ m ∈ s.matchRows, m.id < s.nextId) ∧
  (∀ g ∈ s.messages, g.id < s.nextId ∧ g.matchId < s.nextId)

/-- The state invariant maintained by every handler. -/
def Inv (s : DB) : Prop := likesWitness s ∧ idsBounded s

/-- Concretely: users a, b, c registered, a and b mutually liked, so likes 1
and 2 exist and match 3 has userA = "b", userB = "a". -/
def matchedState : DB :=
  runOps initDB [.register "a", .register "b", .register "c",
    .swipe "a" "b" "like", .swipe "b" "a" "like"]

/-- Concretely: on top of `matchedState`, a and b each send one message to
match 3 within the same second (equal `createdAt` stamp 7). -/
def tiedState : DB := runOps matchedState [.send "a" 3 "hello" 7, .send "b" 3 "hi" 7]

/-- Concretely: users a, b, c registered and a has swiped on b only. -/
def cardsState : DB :=
  runOps initDB [.register "a", .register "b", .register "c", .swipe "a" "b" "like"]

/-- Concretely: users a and b registered, nothing else. -/
def twoUsersState : DB := runOps initDB [.register "a", .register "b"]

/-- Concretely: only user a registered. -/
def oneUserState : DB := runOps initDB [.register "a"]

/-! Branch characterizations of the swipe handler. -/

lemma swipeAction_like_none (s : DB) (u tgt : String) (htgt : tgt ≠ "")
    (hf : findReciprocal (s.likes ++ [⟨s.nextId, u, tgt, "like"⟩]) tgt u = none) :
    swipeAction s u tgt "like" =
      ({ s with likes := s.likes ++ [⟨s.nextId, u, tgt, "like"⟩], nextId := s.nextId + 1 },
       .ok false none, []) := by
  have h1 : (tgt == "") = false := beq_eq_false_iff_ne.mpr htgt
  simp [swipeAction, h1, hf]

lemma swipeAction_like_some (s : DB) (u tgt : String) (l : LikeRec) (htgt : tgt ≠ "")
    (hf : findReciprocal (s.likes ++ [⟨s.nextId, u, tgt, "like"⟩]) tgt u = some l) :
    swipeAction s u tgt "like" =
      ({ s with likes := s.likes ++ [⟨s.nextId, u, tgt, "like"⟩],
                matchRows := s.matchRows ++ [⟨s.nextId + 1, u, tgt⟩],
                nextId := s.nextId + 2 },
       .ok true (some (s.nextId + 1)),
       [.matchedEv u (s.nextId + 1) tgt, .matchedEv tgt (s.nextId + 1) u]) := by
  have h1 : (tgt == "") = false := beq_eq_false_iff_ne.mpr htgt
  simp [swipeAction, h1, hf]

lemma swipeAction_pass (s : DB) (u tgt : String) (htgt : tgt ≠ "") :
    swipeAction s u tgt "pass" =
      ({ s with likes := s.likes ++ [⟨s.nextId, u, tgt, "pass"⟩], nextId := s.nextId + 1 },
       .ok false none, []) := by
  have h1 : (tgt == "") = false := beq_eq_false_iff_ne.mpr htgt
  simp [swipeAction, h1]

lemma swipeAction_invalid (s : DB) (u tgt a : String)
    (h : tgt = "" ∨ a = "" ∨ (a ≠ "like" ∧ a ≠ "pass")) :
    (swipeAction s u tgt a).1 = s := by
  rcases h with h | h | ⟨h1, h2⟩
  · simp [swipeAction, h]
  · simp [swipeAction, h]
  · have e1 : (a == "like") = false := beq_eq_false_iff_ne.mpr h1
    have e2 : (a == "pass") = false := beq_eq_false_iff_ne.mpr h2
    by_cases e0 : tgt = ""
    · simp [swipeAction, e0]
    by_cases ea : a = ""
    · simp [swipeAction, ea]
    · simp [swipeAction, beq_eq_false_iff_ne.mpr e0, beq_eq_false_iff_ne.mpr ea, e1, e2]

/-! Preservation of the invariant by every handler. -/

lemma likesWitness_addLike (s : DB) (x : LikeRec) (h : likesWitness s) :
    ∀ m ∈ s.matchRows,
      (∃ l ∈ s.likes ++ [x], l.fromUserId = m.userA ∧ l.toUserId = m.userB ∧ l.action = "like") ∧
      (∃ l ∈ s.likes ++ [x], l.fromUserId = m.userB ∧ l.toUserId = m.userA ∧ l.action = "like") := by
  intro m hm
  obtain ⟨⟨l1, hl1, hp1⟩, ⟨l2, hl2, hp2⟩⟩ := h m hm
  exact ⟨⟨l1, List.mem_append_left _ hl1, hp1⟩, ⟨l2, List.mem_append_left _ hl2, hp2⟩⟩

lemma inv_swipe (s : DB) (u tgt a : String) (h : Inv s) :
    Inv (swipeAction s u tgt a).1 := by
  obtain ⟨hW, hbl, hbm, hbg⟩ := h
  by_cases htgt : tgt = ""
  · rw [swipeAction_invalid s u tgt a (Or.inl htgt)]; exact ⟨hW, hbl, hbm, hbg⟩
  by_cases hlike : a = "like"
  · subst hlike
    cases hf : findReciprocal (s.likes ++ [⟨s.nextId, u, tgt, "like"⟩]) tgt u with
    | none =>
      rw [swipeAction_like_none s u tgt htgt hf]
      refine ⟨likesWitness_addLike s _ hW, ?_, ?_, ?_⟩
      · intro l hl
        rcases List.mem_append.1 hl with hl | hl
        · exact Nat.lt_succ_of_lt (hbl l hl)
        · simp only [List.mem_singleton] at hl; subst hl; exact Nat.lt_succ_self _
      · intro m hm; exact Nat.lt_succ_of_lt (hbm m hm)
      · intro g hg
        exact ⟨Nat.lt_succ_of_lt (hbg g hg).1, Nat.lt_succ_of_lt (hbg g hg).2⟩
    | some l =>
      rw [swipeAction_like_some s u tgt l htgt hf]
      dsimp only
      have hlmem : l ∈ s.likes ++ [⟨s.nextId, u, tgt, "like"⟩] := List.mem_of_find?_eq_some hf
      have hlp := List.find?_some hf
      rw [Bool.and_eq_true, Bool.and_eq_true] at hlp
      refine ⟨?_, ?_, ?_, ?_⟩
      · intro m hm
        rcases List.mem_append.1 hm with hm | hm
        · exact likesWitness_addLike s _ hW m hm
        · simp only [List.mem_singleton] at hm; subst hm
          refine ⟨⟨⟨s.nextId, u, tgt, "like"⟩, List.mem_append_right _ (List.mem_singleton.2 rfl),
            rfl, rfl, rfl⟩, ⟨l, hlmem, ?_, ?_, ?_⟩⟩
          · exact eq_of_beq hlp.1.1
          · exact eq_of_beq hlp.1.2
          · exact eq_of_beq hlp.2
      · intro l2 hl2
        rcases List.mem_append.1 hl2 with hl2 | hl2
        · exact Nat.lt_succ_of_lt (Nat.lt_succ_of_lt (hbl l2 hl2))
        · simp only [List.mem_singleton] at hl2; subst hl2
          exact Nat.lt_succ_of_lt (Nat.lt_succ_self _)
      · intro m hm
        rcases List.mem_append.1 hm with hm | hm
        · exact Nat.lt_succ_of_lt (Nat.lt_succ_of_lt (hbm m hm))
        · simp only [List.mem_singleton] at hm; subst hm
          exact Nat.lt_succ_self _
      · intro g hg
        exact ⟨Nat.lt_succ_of_lt (Nat.lt_succ_of_lt (hbg g hg).1),
          Nat.lt_succ_of_lt (Nat.lt_succ_of_lt (hbg g hg).2)⟩
  by_cases hpass : a = "pass"
  · subst hpass
    rw [swipeAction_pass s u tgt htgt]
    refine ⟨likesWitness_addLike s _ hW, ?_, ?_, ?_⟩
    · intro l hl
      rcases List.mem_append.1 hl with hl | hl
      · exact Nat.lt_succ_of_lt (hbl l hl)
      · simp only [List.mem_singleton] at hl; subst hl; exact Nat.lt_succ_self _
    · intro m hm; exact Nat.lt_succ_of_lt (hbm m hm)
    · intro g hg
      exact ⟨Nat.lt_succ_of_lt (hbg g hg).1, Nat.lt_succ_of_lt (hbg g hg).2⟩
  · rw [swipeAction_invalid s u tgt a (Or.inr (Or.inr ⟨hlike, hpass⟩))]
    exact ⟨hW, hbl, hbm, hbg⟩

lemma inv_send (s : DB) (u : String) (mid : Nat) (c : String) (t : Nat) (h : Inv s) :
    Inv (sendMessage s u mid c t).1 := by
  obtain ⟨hW, hbl, hbm, hbg⟩ := h
  cases hf : findMatchFor s mid u with
  | none => simpa [sendMessage, hf] using ⟨hW, hbl, hbm, hbg⟩
  | some m =>
    have hmmem : m ∈ s.matchRows := List.mem_of_find?_eq_some hf
    have hmp := List.find?_some hf
    rw [Bool.and_eq_true] at hmp
    have hmid : m.id = mid := eq_of_beq hmp.1
    simp only [sendMessage, hf]
    refine ⟨hW, ?_, ?_, ?_⟩
    · intro l hl; exact Nat.lt_succ_of_lt (hbl l hl)
    · intro m2 hm2; exact Nat.lt_succ_of_lt (hbm m2 hm2)
    · intro g hg
      rcases List.mem_append.1 hg with hg | hg
      · exact ⟨Nat.lt_succ_of_lt (hbg g hg).1, Nat.lt_succ_of_lt (hbg g hg).2⟩
      · simp only [List.mem_singleton] at hg; subst hg
        have h2 := hbm m hmmem
        refine ⟨Nat.lt_succ_self _, ?_⟩
        show mid < s.nextId + 1
        omega

lemma inv_exec (s : DB) (op : Op) (h : Inv s) : Inv (execOp s op) := by
  cases op with
  | register u => exact h
  | swipe u tgt a => exact inv_swipe s u tgt a h
  | send u mid c t => exact inv_send s u mid c t h

lemma inv_runOps (ops : List Op) (s : DB) (h : Inv s) : Inv (runOps s ops) := by
  induction ops generalizing s with
  | nil => exact h
  | cons op rest ih => exact ih (execOp s op) (inv_exec s op h)

lemma inv_initDB : Inv initDB := by
  refine ⟨?_, ?_, ?_, ?_⟩ <;> intro x hx <;> simp [initDB] at hx

lemma reachable_inv (s : DB) (h : Reachable s) : Inv s := by
  obtain ⟨ops, rfl⟩ := h
  exact inv_runOps ops initDB inv_initDB

/-! Behaviour of a mutual-like exchange between two identities with no prior
swipe records between them. -/

lemma mutual_like_first (s : DB) (A B : String) (hAB : A ≠ B) (hB : B ≠ "")
    (hno : ∀ l ∈ s.likes,
      ¬((l.fromUserId = A ∧ l.toUserId = B) ∨ (l.fromUserId = B ∧ l.toUserId = A))) :
    swipeAction s A B "like" =
      ({ s with likes := s.likes ++ [⟨s.nextId, A, B, "like"⟩], nextId := s.nextId + 1 },
       .ok false none, []) := by
  apply swipeAction_like_none s A B hB
  simp only [findReciprocal]
  rw [List.find?_eq_none]
  intro l hl hp
  rw [Bool.and_eq_true, Bool.and_eq_true] at hp
  have h1 : l.fromUserId = B := eq_of_beq hp.1.1
  have h2 : l.toUserId = A := eq_of_beq hp.1.2
  rcases List.mem_append.1 hl with hl | hl
  · exact hno l hl (Or.inr ⟨h1, h2⟩)
  · simp only [List.mem_singleton] at hl; subst hl
    exact hAB h1

lemma swipe_reciprocal_found (s : DB) (A B : String) (hA : A ≠ "")
    (hex : ∃ l ∈ s.likes, l.fromUserId = A ∧ l.toUserId = B ∧ l.action = "like") :
    swipeAction s B A "like" =
      ({ s with likes := s.likes ++ [⟨s.nextId, B, A, "like"⟩],
                matchRows := s.matchRows ++ [⟨s.nextId + 1, B, A⟩],
                nextId := s.nextId + 2 },
       .ok true (some (s.nextId + 1)),
       [.matchedEv B (s.nextId + 1) A, .matchedEv A (s.nextId + 1) B]) := by
  obtain ⟨l, hl, h1, h2, h3⟩ := hex
  cases hf : findReciprocal (s.likes ++ [⟨s.nextId, B, A, "like"⟩]) A B with
  | none =>
    exfalso
    simp only [findReciprocal] at hf
    rw [List.find?_eq_none] at hf
    exact hf l (List.mem_append_left _ hl) (by simp [h1, h2, h3])
  | some l2 => exact swipeAction_like_some s B A l2 hA hf

lemma mutual_like_run (s : DB) (A B : String) (hAB : A ≠ B) (hA : A ≠ "") (hB : B ≠ "")
    (hno : ∀ l ∈ s.likes,
      ¬((l.fromUserId = A ∧ l.toUserId = B) ∨ (l.fromUserId = B ∧ l.toUserId = A))) :
    swipeAction s A B "like" =
      ({ s with likes := s.likes ++ [⟨s.nextId, A, B, "like"⟩], nextId := s.nextId + 1 },
       .ok false none, []) ∧
    swipeAction (swipeAction s A B "like").1 B A "like" =
      ({ s with
          likes := s.likes ++ [⟨s.nextId, A, B, "like"⟩, ⟨s.nextId + 1, B, A, "like"⟩],
          matchRows := s.matchRows ++ [⟨s.nextId + 2, B, A⟩],
          nextId := s.nextId + 3 },
       .ok true (some (s.nextId + 2)),
       [.matchedEv B (s.nextId + 2) A, .matchedEv A (s.nextId + 2) B]) := by
  have e1 := mutual_like_first s A B hAB hB hno
  refine ⟨e1, ?_⟩
  rw [e1]
  have e2 := swipe_reciprocal_found
    { s with likes := s.likes ++ [⟨s.nextId, A, B, "like"⟩], nextId := s.nextId + 1 }
    A B hA
    ⟨⟨s.nextId, A, B, "like"⟩, List.mem_append_right _ (List.mem_singleton.2 rfl),
      rfl, rfl, rfl⟩
  rw [e2]
  simp [List.append_assoc]

lemma no_match_rows_between (s : DB) (hW : likesWitness s) (A B : String)
    (hno : ∀ l ∈ s.likes,
      ¬((l.fromUserId = A ∧ l.toUserId = B) ∨ (l.fromUserId = B ∧ l.toUserId = A))) :
    s.matchRows.filter
      (fun m => (m.userA == A && m.userB == B) || (m.userA == B && m.userB == A)) = [] := by
  rw [List.filter_eq_nil_iff]
  intro m hm hp
  rw [Bool.or_eq_true, Bool.and_eq_true, Bool.and_eq_true] at hp
  obtain ⟨⟨w1, hw1mem, hw1⟩, _⟩ := hW m hm
  rcases hp with ⟨h1, h2⟩ | ⟨h1, h2⟩
  · exact hno w1 hw1mem
      (Or.inl ⟨by rw [hw1.1, eq_of_beq h1], by rw [hw1.2.1, eq_of_beq h2]⟩)
  · exact hno w1 hw1mem
      (Or.inr ⟨by rw [hw1.1, eq_of_beq h1], by rw [hw1.2.1, eq_of_beq h2]⟩)

lemma mutual_like_full (s : DB) (hInv : Inv s) (A B : String) (hAB : A ≠ B)
    (hA : A ≠ "") (hB : B ≠ "")
    (hno : ∀ l ∈ s.likes,
      ¬((l.fromUserId = A ∧ l.toUserId = B) ∨ (l.fromUserId = B ∧ l.toUserId = A))) :
    (swipeAction s A B "like").2.1 = .ok false none ∧
    (swipeAction (swipeAction s A B "like").1 B A "like").2.1 =
      .ok true (some (s.nextId + 2)) ∧
    (swipeAction (swipeAction s A B "like").1 B A "like").2.2 =
      [.matchedEv B (s.nextId + 2) A, .matchedEv A (s.nextId + 2) B] ∧
    matchesBetween (swipeAction (swipeAction s A B "like").1 B A "like").1 A B =
      [⟨s.nextId + 2, B, A⟩] ∧
    getMessages (swipeAction (swipeAction s A B "like").1 B A "like").1 A (s.nextId + 2) =
      .ok [] ∧
    getMessages (swipeAction (swipeAction s A B "like").1 B A "like").1 B (s.nextId + 2) =
      .ok [] := by
  obtain ⟨hW, hbl, hbm, hbg⟩ := hInv
  obtain ⟨e1, e2⟩ := mutual_like_run s A B hAB hA hB hno
  rw [e1] at e2
  have hBA : (B == A) = false := beq_eq_false_iff_ne.mpr (Ne.symm hAB)
  have holdfind : ∀ u : String,
      s.matchRows.find?
        (fun m => m.id == s.nextId + 2 && (m.userA == u || m.userB == u)) = none := by
    intro u
    rw [List.find?_eq_none]
    intro m hm hp
    rw [Bool.and_eq_true] at hp
    have := eq_of_beq hp.1
    have := hbm m hm
    omega
  have hmsgs :
      s.messages.filter (fun g => g.matchId == s.nextId + 2) = [] := by
    rw [List.filter_eq_nil_iff]
    intro g hg hp
    have := eq_of_beq hp
    have := (hbg g hg).2
    omega
  refine ⟨by rw [e1], by rw [e1, e2], by rw [e1, e2], ?_, ?_, ?_⟩
  · rw [e1, e2]
    show (s.matchRows ++ [(⟨s.nextId + 2, B, A⟩ : MatchRow)]).filter _ = _
    rw [List.filter_append, no_match_rows_between s hW A B hno]
    simp [hBA]
  · rw [e1, e2]
    show getMessages _ A (s.nextId + 2) = .ok []
    rw [getMessages]
    have hfind : findMatchFor
        { s with
            likes := s.likes ++ [⟨s.nextId, A, B, "like"⟩, ⟨s.nextId + 1, B, A, "like"⟩],
            matchRows := s.matchRows ++ [⟨s.nextId + 2, B, A⟩],
            nextId := s.nextId + 3 } (s.nextId + 2) A = some ⟨s.nextId + 2, B, A⟩ := by
      show (s.matchRows ++ [(⟨s.nextId + 2, B, A⟩ : MatchRow)]).find? _ = _
      rw [List.find?_append, holdfind A]
      simp [hBA]
    rw [hfind]
    show Except.ok (List.insertionSort byCreatedAt (s.messages.filter _)) = _
    rw [hmsgs]
    rfl
  · rw [e1, e2]
    show getMessages _ B (s.nextId + 2) = .ok []
    rw [getMessages]
    have hfind : findMatchFor
        { s with
            likes := s.likes ++ [⟨s.nextId, A, B, "like"⟩, ⟨s.nextId + 1, B, A, "like"⟩],
            matchRows := s.matchRows ++ [⟨s.nextId + 2, B, A⟩],
            nextId := s.nextId + 3 } (s.nextId + 2) B = some ⟨s.nextId + 2, B, A⟩ := by
      show (s.matchRows ++ [(⟨s.nextId + 2, B, A⟩ : MatchRow)]).find? _ = _
      rw [List.find?_append, holdfind B]
      simp
    rw [hfind]
    show Except.ok (List.insertionSort byCreatedAt (s.messages.filter _)) = _
    rw [hmsgs]
    rfl

lemma matchesBetween_comm (s : DB) (a b : String) :
    matchesBetween s a b = matchesBetween s b a := by
  unfold matchesBetween
  apply List.filter_congr
  intro m _
  exact Bool.or_comm _ _

lemma swipe_appends (s : DB) (u tgt a : String) (htgt : tgt ≠ "")
    (ha : a = "like" ∨ a = "pass") :
    (swipeAction s u tgt a).2.1.isOk = true ∧
    LikeRec.mk s.nextId u tgt a ∈ (swipeAction s u tgt a).1.likes := by
  rcases ha with ha | ha <;> subst ha
  · cases hf : findReciprocal (s.likes ++ [⟨s.nextId, u, tgt, "like"⟩]) tgt u with
    | none =>
      rw [swipeAction_like_none s u tgt htgt hf]
      exact ⟨rfl, List.mem_append_right _ (List.mem_singleton.2 rfl)⟩
    | some l =>
      rw [swipeAction_like_some s u tgt l htgt hf]
      exact ⟨rfl, List.mem_append_right _ (List.mem_singleton.2 rfl)⟩
  · rw [swipeAction_pass s u tgt htgt]
    exact ⟨rfl, List.mem_append_right _ (List.mem_singleton.2 rfl)⟩

/-! The claims. -/

/-- C1: for distinct identities A and B with no prior swipe records between
them, in a reachable state, like(A,B) then like(B,A) yields exactly one match
row with participants A and B; the second SubmitSwipe call returns matched =
true with that row's id, and GetMessages on the new match by either participant
returns the empty list. -/
theorem C1_mutual_like_single_match (s : DB) (hs : Reachable s) (A B : String)
    (hAB : A ≠ B) (hA : A ≠ "") (hB : B ≠ "")
    (hno : ∀ l ∈ s.likes,
      ¬((l.fromUserId = A ∧ l.toUserId = B) ∨ (l.fromUserId = B ∧ l.toUserId = A))) :
    (swipeAction (swipeAction s A B "like").1 B A "like").2.1 =
      .ok true (some (s.nextId + 2)) ∧
    (matchesBetween (swipeAction (swipeAction s A B "like").1 B A "like").1 A B).length
      = 1 ∧
    getMessages (swipeAction (swipeAction s A B "like").1 B A "like").1 A (s.nextId + 2)
      = .ok [] ∧
    getMessages (swipeAction (swipeAction s A B "like").1 B A "like").1 B (s.nextId + 2)
      = .ok [] := by
  obtain ⟨_, h2, _, h4, h5, h6⟩ :=
    mutual_like_full s (reachable_inv s hs) A B hAB hA hB hno
  exact ⟨h2, by rw [h4]; rfl, h5, h6⟩

/-- Witness for C1 at the fresh database with identities a and b: the second
call returns matched = true with match id 3, one match row links a and b, and
both message histories are empty. -/
theorem C1_witness :
    (swipeAction (swipeAction initDB "a" "b" "like").1 "b" "a" "like").2.1 =
      .ok true (some 3) ∧
    (matchesBetween (swipeAction (swipeAction initDB "a" "b" "like").1 "b" "a" "like").1
      "a" "b").length = 1 ∧
    getMessages (swipeAction (swipeAction initDB "a" "b" "like").1 "b" "a" "like").1 "a" 3
      = .ok [] ∧
    getMessages (swipeAction (swipeAction initDB "a" "b" "like").1 "b" "a" "like").1 "b" 3
      = .ok [] :=
  C1_mutual_like_single_match initDB ⟨[], rfl⟩ "a" "b" (by decide) (by decide) (by decide)
    (by decide)

/-- C2 fails on the code: with a and b already matched (match row 3), a further
like(a,b) inserts a second match row for the same unordered pair, returns the
new id 5 rather than the existing id 3, and emits a second pair of matched
events — the handler never checks for an existing match. -/
theorem C2_duplicate_match_on_repeated_like :
    (matchesBetween (swipeAction matchedState "a" "b" "like").1 "a" "b").length = 2 ∧
    (swipeAction matchedState "a" "b" "like").2.1 = .ok true (some 5) ∧
    MatchRow.mk 3 "b" "a" ∈ (swipeAction matchedState "a" "b" "like").1.matchRows ∧
    (swipeAction matchedState "a" "b" "like").2.2 =
      [.matchedEv "a" 5 "b", .matchedEv "b" 5 "a"] := by decide

/-- C3 is false as stated: the two "simultaneous" calls execute serially in the
single-threaded server, and in either order the first-executed call returns
matched = false, so the two responses never both report matched = true. -/
theorem C3_counterexample :
    ¬((swipeAction twoUsersState "a" "b" "like").2.1.isMatched = true ∧
      (swipeAction (swipeAction twoUsersState "a" "b" "like").1 "b" "a" "like").2.1.isMatched
        = true) ∧
    ¬((swipeAction twoUsersState "b" "a" "like").2.1.isMatched = true ∧
      (swipeAction (swipeAction twoUsersState "b" "a" "like").1 "a" "b" "like").2.1.isMatched
        = true) := by decide

/-- C3 amended: concurrent mutual likes execute serially in some order; in both
orders exactly one match is created, the later-executed call returns matched =
true with its id, the earlier-executed call returns matched = false, and the
earlier party is notified through the matched event instead. -/
theorem C3_serialized_mutual_like (s : DB) (hs : Reachable s) (A B : String)
    (hAB : A ≠ B) (hA : A ≠ "") (hB : B ≠ "")
    (hno : ∀ l ∈ s.likes,
      ¬((l.fromUserId = A ∧ l.toUserId = B) ∨ (l.fromUserId = B ∧ l.toUserId = A))) :
    ((swipeAction s A B "like").2.1 = .ok false none ∧
     (swipeAction (swipeAction s A B "like").1 B A "like").2.1 =
       .ok true (some (s.nextId + 2)) ∧
     (matchesBetween (swipeAction (swipeAction s A B "like").1 B A "like").1 A B).length
       = 1 ∧
     (swipeAction (swipeAction s A B "like").1 B A "like").2.2 =
       [.matchedEv B (s.nextId + 2) A, .matchedEv A (s.nextId + 2) B]) ∧
    ((swipeAction s B A "like").2.1 = .ok false none ∧
     (swipeAction (swipeAction s B A "like").1 A B "like").2.1 =
       .ok true (some (s.nextId + 2)) ∧
     (matchesBetween (swipeAction (swipeAction s B A "like").1 A B "like").1 A B).length
       = 1 ∧
     (swipeAction (swipeAction s B A "like").1 A B "like").2.2 =
       [.matchedEv A (s.nextId + 2) B, .matchedEv B (s.nextId + 2) A]) := by
  have hInv := reachable_inv s hs
  have hno2 : ∀ l ∈ s.likes,
      ¬((l.fromUserId = B ∧ l.toUserId = A) ∨ (l.fromUserId = A ∧ l.toUserId = B)) :=
    fun l hl h2 => hno l hl h2.symm
  obtain ⟨a1, a2, _, a4, _, _⟩ := mutual_like_full s hInv A B hAB hA hB hno
  obtain ⟨b1, b2, _, b4, _, _⟩ := mutual_like_full s hInv B A (Ne.symm hAB) hB hA hno2
  refine ⟨⟨a1, a2, by rw [a4]; rfl, ?_⟩, ⟨b1, b2, ?_, ?_⟩⟩
  · exact (mutual_like_full s hInv A B hAB hA hB hno).2.2.1
  · rw [matchesBetween_comm, b4]; rfl
  · exact (mutual_like_full s hInv B A (Ne.symm hAB) hB hA hno2).2.2.1

/-- Witness for C3 at the state with users a and b registered: both serial
orders yield matched = false then matched = true with id 3. -/
theorem C3_witness :
    ((swipeAction twoUsersState "a" "b" "like").2.1 = .ok false none ∧
     (swipeAction (swipeAction twoUsersState "a" "b" "like").1 "b" "a" "like").2.1 =
       .ok true (some 3) ∧
     (matchesBetween (swipeAction (swipeAction twoUsersState "a" "b" "like").1 "b" "a"
       "like").1 "a" "b").length = 1 ∧
     (swipeAction (swipeAction twoUsersState "a" "b" "like").1 "b" "a" "like").2.2 =
       [.matchedEv "b" 3 "a", .matchedEv "a" 3 "b"]) ∧
    ((swipeAction twoUsersState "b" "a" "like").2.1 = .ok false none ∧
     (swipeAction (swipeAction twoUsersState "b" "a" "like").1 "a" "b" "like").2.1 =
       .ok true (some 3) ∧
     (matchesBetween (swipeAction (swipeAction twoUsersState "b" "a" "like").1 "a" "b"
       "like").1 "a" "b").length = 1 ∧
     (swipeAction (swipeAction twoUsersState "b" "a" "like").1 "a" "b" "like").2.2 =
       [.matchedEv "a" 3 "b", .matchedEv "b" 3 "a"]) :=
  C3_serialized_mutual_like twoUsersState ⟨[.register "a", .register "b"], rfl⟩ "a" "b"
    (by decide) (by decide) (by decide) (by decide)

/-- C4 is false as stated: SubmitSwipe(a, a, like) does not fail NoSelfAction —
the handler has no self-action check.  The swipe record is appended, the
just-inserted row satisfies its own reciprocal query, and a match of a with
itself is created with matched = true returned. -/
theorem C4_counterexample :
    (swipeAction initDB "a" "a" "like").2.1 = .ok true (some 2) ∧
    (swipeAction initDB "a" "a" "like").1.likes = [⟨1, "a", "a", "like"⟩] := by decide

/-- C4 amended: a self-swipe is accepted, not rejected: the response is a 200
body, the swipe record is appended, and a self-like immediately creates a match
row whose two participants are both A. -/
theorem C4_self_swipe_accepted (s : DB) (A d : String) (hA : A ≠ "")
    (hd : d = "like" ∨ d = "pass") :
    (swipeAction s A A d).2.1.isOk = true ∧
    LikeRec.mk s.nextId A A d ∈ (swipeAction s A A d).1.likes ∧
    (d = "like" →
      (swipeAction s A A d).2.1 = .ok true (some (s.nextId + 1)) ∧
      MatchRow.mk (s.nextId + 1) A A ∈ (swipeAction s A A d).1.matchRows) := by
  rcases hd with hd | hd <;> subst hd
  · cases hf : findReciprocal (s.likes ++ [⟨s.nextId, A, A, "like"⟩]) A A with
    | none =>
      exfalso
      simp only [findReciprocal] at hf
      rw [List.find?_eq_none] at hf
      exact hf ⟨s.nextId, A, A, "like"⟩
        (List.mem_append_right _ (List.mem_singleton.2 rfl)) (by simp)
    | some l =>
      rw [swipeAction_like_some s A A l hA hf]
      exact ⟨rfl, List.mem_append_right _ (List.mem_singleton.2 rfl),
        fun _ => ⟨rfl, List.mem_append_right _ (List.mem_singleton.2 rfl)⟩⟩
  · rw [swipeAction_pass s A A hA]
    exact ⟨rfl, List.mem_append_right _ (List.mem_singleton.2 rfl),
      fun h2 => absurd h2 (by decide)⟩

/-- Witness for C4 at the fresh database: a self-like by a succeeds, appends
like row 1 and creates self-match row 2. -/
theorem C4_witness :
    (swipeAction initDB "a" "a" "like").2.1.isOk = true ∧
    LikeRec.mk 1 "a" "a" "like" ∈ (swipeAction initDB "a" "a" "like").1.likes ∧
    ("like" = "like" →
      (swipeAction initDB "a" "a" "like").2.1 = .ok true (some 2) ∧
      MatchRow.mk 2 "a" "a" ∈ (swipeAction initDB "a" "a" "like").1.matchRows) :=
  C4_self_swipe_accepted initDB "a" "like" (by decide) (Or.inl rfl)

/-- C5 is false as stated: with a and b matched (row 3), the uninvolved c gets
the 404 NotFound body "Match não encontrado" from GetMessages — the same error
as an unknown id — and the socket error string from SendMessage; no Forbidden
is ever produced, and the send persists nothing. -/
theorem C5_counterexample :
    getMessages matchedState "c" 3 = .error (.notFound "Match não encontrado") ∧
    (sendMessage matchedState "c" 3 "hi" 9).2.1 = .error "Match não encontrado" ∧
    (sendMessage matchedState "c" 3 "hi" 9).1 = matchedState := by decide

/-- C5 amended: a requester who is not a participant of any match row carrying
the given id fails with the NotFound response (GetMessages) or the socket error
string (SendMessage), identical to the unknown-id failure, and nothing is
persisted; a participant of a match row with that id succeeds on both. -/
theorem C5_nonparticipant_not_found (s : DB) (u : String) (mid : Nat) (c : String)
    (t : Nat) :
    ((∀ m ∈ s.matchRows, m.id = mid → m.userA ≠ u ∧ m.userB ≠ u) →
      getMessages s u mid = .error (.notFound "Match não encontrado") ∧
      (sendMessage s u mid c t).2.1 = .error "Match não encontrado" ∧
      (sendMessage s u mid c t).1 = s) ∧
    ((∃ m ∈ s.matchRows, m.id = mid ∧ (m.userA = u ∨ m.userB = u)) →
      (getMessages s u mid).isOk = true ∧ (sendMessage s u mid c t).2.1.isOk = true) := by
  constructor
  · intro h
    have hf : findMatchFor s mid u = none := by
      simp only [findMatchFor]
      rw [List.find?_eq_none]
      intro m hm hp
      rw [Bool.and_eq_true, Bool.or_eq_true] at hp
      obtain ⟨h1, h2⟩ := h m hm (eq_of_beq hp.1)
      rcases hp.2 with hp2 | hp2
      · exact h1 (eq_of_beq hp2)
      · exact h2 (eq_of_beq hp2)
    exact ⟨by simp [getMessages, hf], by simp [sendMessage, hf], by simp [sendMessage, hf]⟩
  · rintro ⟨m, hm, hid, hpart⟩
    cases hf : findMatchFor s mid u with
    | none =>
      exfalso
      simp only [findMatchFor] at hf
      rw [List.find?_eq_none] at hf
      apply hf m hm
      rw [Bool.and_eq_true, Bool.or_eq_true]
      refine ⟨beq_of_eq hid, ?_⟩
      rcases hpart with h2 | h2
      · exact Or.inl (beq_of_eq h2)
      · exact Or.inr (beq_of_eq h2)
    | some m2 =>
      exact ⟨by simp only [getMessages, hf]; rfl, by simp only [sendMessage, hf]; rfl⟩

/-- Witness for C5: c (not a participant) fails on match 3 of matchedState with
the NotFound body, while participant a succeeds on both operations. -/
theorem C5_witness :
    (getMessages matchedState "c" 3 = .error (.notFound "Match não encontrado") ∧
     (sendMessage matchedState "c" 3 "oi" 9).2.1 = .error "Match não encontrado" ∧
     (sendMessage matchedState "c" 3 "oi" 9).1 = matchedState) ∧
    ((getMessages matchedState "a" 3).isOk = true ∧
     (sendMessage matchedState "a" 3 "oi" 9).2.1.isOk = true) :=
  ⟨(C5_nonparticipant_not_found matchedState "c" 3 "oi" 9).1 (by decide),
   (C5_nonparticipant_not_found matchedState "a" 3 "oi" 9).2
     ⟨⟨3, "b", "a"⟩, by decide, rfl, Or.inr rfl⟩⟩

/-- C6 is false as stated: messages have no sequence number — the only ordering
key is the second-granularity createdAt stamp — so two messages persisted
within the same second come back with equal keys and the returned history is
not strictly increasing. -/
theorem C6_counterexample :
    getMessages tiedState "a" 3 =
      .ok [⟨4, 3, "a", "hello", 7⟩, ⟨5, 3, "b", "hi", 7⟩] ∧
    strictIncCreatedAt [⟨4, 3, "a", "hello", 7⟩, ⟨5, 3, "b", "hi", 7⟩] = false := by
  decide

/-- C6 amended: GetMessages returns exactly the match's persisted messages
ordered by createdAt in non-decreasing (not strict) order; no per-match
sequence number exists in the schema. -/
theorem C6_messages_sorted_by_createdAt (s : DB) (u : String) (mid : Nat)
    (l : List MessageRow) (h : getMessages s u mid = .ok l) :
    l.Sorted byCreatedAt ∧ l.Perm (s.messages.filter fun g => g.matchId == mid) := by
  rw [getMessages] at h
  cases hf : findMatchFor s mid u with
  | none => rw [hf] at h; cases h
  | some m =>
    rw [hf] at h
    injection h with h
    subst h
    exact ⟨List.sorted_insertionSort byCreatedAt _, List.perm_insertionSort byCreatedAt _⟩

/-- Witness for C6 at tiedState: the returned history of match 3 is sorted by
createdAt and is a permutation of the stored messages of match 3. -/
theorem C6_witness :
    ([⟨4, 3, "a", "hello", 7⟩, ⟨5, 3, "b", "hi", 7⟩] : List MessageRow).Sorted byCreatedAt ∧
    ([⟨4, 3, "a", "hello", 7⟩, ⟨5, 3, "b", "hi", 7⟩] : List MessageRow).Perm
      (tiedState.messages.filter fun g => g.matchId == 3) :=
  C6_messages_sorted_by_createdAt tiedState "a" 3
    [⟨4, 3, "a", "hello", 7⟩, ⟨5, 3, "b", "hi", 7⟩] (by decide)

/-- C7 is false as stated: a reachable state (after the self-like of a) holds a
match row whose two participants are the same identity. -/
theorem C7_counterexample :
    ¬(∀ s : DB, Reachable s → ∀ m ∈ s.matchRows, m.userA ≠ m.userB) := by
  intro h
  exact h (runOps initDB [.swipe "a" "a" "like"]) ⟨[.swipe "a" "a" "like"], rfl⟩
    ⟨2, "a", "a"⟩ (by decide) rfl

/-- C7 amended: every match row in a reachable state links the two endpoints of
a reciprocal like pair, but the two participants need not be distinct — a
self-like produces a match row with both participants equal. -/
theorem C7_match_links_reciprocal_likes (s : DB) (hs : Reachable s) :
    ∀ m ∈ s.matchRows,
      (∃ l ∈ s.likes, l.fromUserId = m.userA ∧ l.toUserId = m.userB ∧ l.action = "like") ∧
      (∃ l ∈ s.likes, l.fromUserId = m.userB ∧ l.toUserId = m.userA ∧ l.action = "like") :=
  (reachable_inv s hs).1

/-- Witness for C7 at matchedState: its match row is backed by likes in both
directions. -/
theorem C7_witness :
    Reachable matchedState ∧
    ∀ m ∈ matchedState.matchRows,
      (∃ l ∈ matchedState.likes,
        l.fromUserId = m.userA ∧ l.toUserId = m.userB ∧ l.action = "like") ∧
      (∃ l ∈ matchedState.likes,
        l.fromUserId = m.userB ∧ l.toUserId = m.userA ∧ l.action = "like") :=
  ⟨⟨[.register "a", .register "b", .register "c",
      .swipe "a" "b" "like", .swipe "b" "a" "like"], rfl⟩,
   C7_match_links_reciprocal_likes matchedState
     ⟨[.register "a", .register "b", .register "c",
        .swipe "a" "b" "like", .swipe "b" "a" "like"], rfl⟩⟩

/-- C8: whenever the card listing for identity u succeeds, the returned
sequence contains neither u nor any identity u has ever swiped on. -/
theorem C8_cards_exclude_self_and_decided (s : DB) (u : String) (l : List String)
    (h : getCards s u = .ok l) :
    u ∉ l ∧ ∀ y ∈ decidedTargets s u, y ∉ l := by
  simp only [getCards] at h
  by_cases he : (decidedTargets s u).isEmpty
  · rw [if_pos he] at h; cases h
  · rw [if_neg he] at h
    injection h with h
    subst h
    constructor
    · intro hu
      have h2 := (List.mem_filter.1 hu).2
      rw [Bool.and_eq_true] at h2
      simpa using h2.1
    · intro y hy hmem
      have h2 := (List.mem_filter.1 hmem).2
      rw [Bool.and_eq_true] at h2
      have h3 := h2.2
      have hc : (decidedTargets s u).contains y = true := List.elem_iff.mpr hy
      rw [hc] at h3
      simp at h3

/-- Witness for C8 at cardsState (a has swiped b): the listing succeeds with
only c, which excludes a itself and a's decided target b. -/
theorem C8_witness :
    getCards cardsState "a" = .ok ["c"] ∧
    ("a" ∉ ["c"] ∧ ∀ y ∈ decidedTargets cardsState "a", y ∉ ["c"]) :=
  ⟨by decide, C8_cards_exclude_self_and_decided cardsState "a" ["c"] (by decide)⟩

/-- C9 is false as stated: a swipe at the unknown identity ghost succeeds with
matched = false and appends the like row — there is no target-existence check
and foreign keys are never enabled, so no NotFound is produced. -/
theorem C9_counterexample :
    "ghost" ∉ oneUserState.users ∧
    (swipeAction oneUserState "a" "ghost" "like").2.1 = .ok false none ∧
    (swipeAction oneUserState "a" "ghost" "like").1.likes =
      [⟨1, "a", "ghost", "like"⟩] := by decide

/-- C9 amended: a swipe whose target is unknown to the users table is accepted
like any other: the response is a 200 body and the swipe record is appended;
the handler never checks the target against the users table. -/
theorem C9_unknown_target_accepted (s : DB) (u tgt a : String) (_hunknown : tgt ∉ s.users)
    (htgt : tgt ≠ "") (ha : a = "like" ∨ a = "pass") :
    (swipeAction s u tgt a).2.1.isOk = true ∧
    LikeRec.mk s.nextId u tgt a ∈ (swipeAction s u tgt a).1.likes :=
  swipe_appends s u tgt a htgt ha

/-- Witness for C9: the swipe of a at the unregistered ghost succeeds and its
like row is stored. -/
theorem C9_witness :
    "ghost" ∉ oneUserState.users ∧
    ((swipeAction oneUserState "a" "ghost" "like").2.1.isOk = true ∧
     LikeRec.mk 1 "a" "ghost" "like" ∈ (swipeAction oneUserState "a" "ghost" "like").1.likes) :=
  ⟨by decide,
   C9_unknown_target_accepted oneUserState "a" "ghost" "like" (by decide) (by decide)
     (Or.inl rfl)⟩

/-- C10: for every identity with no recorded swipe actions, the card listing
fails with the 500 internal error — the seen list is empty, so the SQL text is
prepared with two placeholders while only one value is bound, better-sqlite3
throws, and the catch answers 500 — instead of returning the candidates. -/
theorem C10_empty_history_cards_error (s : DB) (u : String)
    (h : ∀ l ∈ s.likes, l.fromUserId ≠ u) :
    getCards s u = .error (.internal "Erro ao obter cards") := by
  have hseen : decidedTargets s u = [] := by
    have h2 : s.likes.filter (fun l => l.fromUserId == u) = [] :=
      List.filter_eq_nil_iff.mpr (fun l hl hp => h l hl (eq_of_beq hp))
    simp only [decidedTargets, h2]
    rfl
  simp [getCards, hseen]

/-- Witness for C10 at the fresh database: the listing for a fails with the 500
body. -/
theorem C10_witness :
    getCards initDB "a" = .error (.internal "Erro ao obter cards") :=
  C10_empty_history_cards_error initDB "a" (by decide)

end Tintin
